import Mathlib

/-!
Verification of the order-lifecycle core of a canteen ordering backend
(`orderService.js`, `cartService.js`).  The services are shallowly embedded
as pure functions over an explicit database state `DB`; every mutating
operation returns the post-state together with an `Except` result, where an
`error` result models a thrown exception (Prisma operations run inside the
service either entirely succeed or throw, and the `$transaction` wrapper
rolls the state back, so an error leaves the returned state untouched).
Monetary values are modelled as exact rationals.
-/

namespace Cantina

/-- A catalog product as read by the services: `id`, `name`, `price`,
`isAvailable` (the only fields `cartService`/`orderService` consult). -/
structure Product where
  id : Nat
  name : String
  price : Rat
  isAvailable : Bool
  deriving Repr, DecidableEq

/-- A cart line: references a product, holds a positive quantity and
optional free-text notes (`cartItem` rows, joined into their cart). -/
structure CartItem where
  id : Nat
  productId : Nat
  quantity : Nat
  notes : Option String
  deriving Repr, DecidableEq

/-- A user's cart (1:1 with the user) with its items. -/
structure Cart where
  id : Nat
  userId : Nat
  items : List CartItem
  deriving Repr, DecidableEq

/-- Order statuses, named as in the source (`PENDENTE` = PENDING,
`EM_PREPARO` = IN_PREPARATION, `PRONTO` = READY, `ENTREGUE` = DELIVERED,
`CANCELADO` = CANCELLED). -/
inductive OrderStatus where
  | PENDENTE
  | EM_PREPARO
  | PRONTO
  | ENTREGUE
  | CANCELADO
  deriving Repr, DecidableEq

/-- An order line: denormalized snapshot of the product's name and unit
price at purchase time (`orderService.createFromCart` builds these). -/
structure OrderItem where
  productId : Nat
  productName : String
  quantity : Nat
  unitPrice : Rat
  totalPrice : Rat
  notes : Option String
  deriving Repr, DecidableEq

/-- One `orderStatusHistory` row: the new status, the actor who changed it
(absent for system-generated entries), optional notes, and the change
timestamp.  Stored in chronological (append) order on the order. -/
structure StatusHistoryEntry where
  status : OrderStatus
  changedBy : Option Nat
  notes : Option String
  changedAt : Nat
  deriving Repr, DecidableEq

/-- An order with its items, status history (chronological order) and the
status-specific timestamp fields. -/
structure Order where
  id : Nat
  orderNumber : Nat
  userId : Nat
  totalAmount : Rat
  notes : Option String
  status : OrderStatus
  items : List OrderItem
  statusHistory : List StatusHistoryEntry
  preparedAt : Option Nat
  readyAt : Option Nat
  deliveredAt : Option Nat
  cancelledAt : Option Nat
  deriving Repr, DecidableEq

/-- The database state seen by the services.  `counter` is the single
`order_counter` row (`none` = the row does not exist yet).  `nextId` is the
id supply for newly created rows and `now` a logical clock used for
timestamps (it advances on every mutation, so `changedAt` values written
later are strictly larger). -/
structure DB where
  products : List Product
  carts : List Cart
  orders : List Order
  counter : Option Nat
  nextId : Nat
  now : Nat
  deriving Repr, DecidableEq

/-- The domain errors thrown by the two services, as discriminated kinds;
each corresponds to one `new Error(...)` site with its attached status
code. -/
inductive DomainError where
  /-- Error `'Carrinho vazio'`, 400 — cart absent or without items. -/
  | emptyCart
  /-- Error `'Produto "<name>" nao esta mais disponivel'`, 400 (order creation). -/
  | productUnavailable (name : String)
  /-- a cart item whose product row is absent: the join would yield `null`
  and the service would crash dereferencing it. -/
  | productMissing (productId : Nat)
  /-- Error `'Produto nao encontrado'`, 404 (cart add). -/
  | productNotFound
  /-- Error `'Produto nao disponivel'`, 400 (cart add). -/
  | productNotAvailable
  /-- Error `'Carrinho nao encontrado'`, 404. -/
  | cartNotFound
  /-- Error `'Item nao encontrado no carrinho'`, 404. -/
  | itemNotFound
  /-- Error `'Pedido nao encontrado'`, 404. -/
  | orderNotFound
  /-- Error `'Nao e possivel mudar de <current> para <requested>'`, 400 — names
  both the current and the requested status. -/
  | invalidTransition (current requested : OrderStatus)
  /-- Error `'Apenas pedidos pendentes podem ser cancelados'`, 400. -/
  | onlyPendingCancellable
  /-- injected storage fault inside the creation transaction (used to model
  partial-failure executions of `prisma.$transaction`). -/
  | txFault
  deriving Repr, DecidableEq

/-- Embeds `prisma.cart.findUnique` keyed by `userId`. -/
def findCart (db : DB) (userId : Nat) : Option Cart :=
  db.carts.find? (fun c => c.userId == userId)

/-- Embeds `prisma.product.findUnique` keyed by `id`. -/
def findProduct (db : DB) (productId : Nat) : Option Product :=
  db.products.find? (fun p => p.id == productId)

/-- Embeds `prisma.order.findUnique` keyed by `id`. -/
def findOrder (db : DB) (id : Nat) : Option Order :=
  db.orders.find? (fun o => o.id == id)

/-- The `include: { product: true }` join on cart items: pairs every item
with its current product row, failing if a referenced row is absent. -/
def resolvedItems (db : DB) : List CartItem → Except DomainError (List (CartItem × Product))
  | [] => Except.ok []
  | it :: rest =>
    match findProduct db it.productId with
    | none => Except.error (DomainError.productMissing it.productId)
    | some p =>
      match resolvedItems db rest with
      | Except.error e => Except.error e
      | Except.ok rs => Except.ok ((it, p) :: rs)

/-- Modelled from the spec: the table `VALID_STATUS_TRANSITIONS` lives in
`src/utils/constants.js`, which is not among the provided sources (only its
callers are); §4.3 of the spec gives the table, and the comment block in
`orderService.updateStatus` states the same transitions. -/
def VALID_STATUS_TRANSITIONS : OrderStatus → List OrderStatus
  | OrderStatus.PENDENTE => [OrderStatus.EM_PREPARO, OrderStatus.CANCELADO]
  | OrderStatus.EM_PREPARO => [OrderStatus.PRONTO, OrderStatus.CANCELADO]
  | OrderStatus.PRONTO => [OrderStatus.ENTREGUE, OrderStatus.CANCELADO]
  | OrderStatus.ENTREGUE => []
  | OrderStatus.CANCELADO => []

/-- The steps of the creation transaction at which a storage fault may be
injected (counter upsert, order/items/history insert, cart purge). -/
inductive TxStep where
  | counterUpsert
  | orderCreate
  | cartPurge
  deriving Repr, DecidableEq

/-- The order-item snapshots and total built by `createFromCart` from the
resolved cart lines: `unitPrice` and `productName` are copied from the
*current* product, `totalPrice = price * quantity`. -/
def mkOrderItems (resolved : List (CartItem × Product)) : List OrderItem :=
  resolved.map (fun x =>
    { productId := x.1.productId
      productName := x.2.name
      quantity := x.1.quantity
      unitPrice := x.2.price
      totalPrice := x.2.price * (x.1.quantity : Rat)
      notes := x.1.notes })

/-- Embeds `OrderService.createFromCart(userId, notes)`, with an explicit fault
parameter for the transactional part: `failAt = some s` means the storage
operation of step `s` fails inside `prisma.$transaction`, which then rolls
every write back, so the returned state is the input state.  `failAt =
none` is the normal execution.  Outside the transaction the function
performs the source's checks in order: cart lookup, emptiness, per-item
availability (throwing on the first unavailable product). -/
def createFromCartAux (db : DB) (userId : Nat) (notes : Option String)
    (failAt : Option TxStep) : DB × Except DomainError Order :=
  match findCart db userId with
  | none => (db, Except.error DomainError.emptyCart)
  | some cart =>
    if cart.items.isEmpty then
      (db, Except.error DomainError.emptyCart)
    else
      match resolvedItems db cart.items with
      | Except.error e => (db, Except.error e)
      | Except.ok resolved =>
        match resolved.find? (fun x => !x.2.isAvailable) with
        | some x => (db, Except.error (DomainError.productUnavailable x.2.name))
        | none =>
          match failAt with
          | some _ => (db, Except.error DomainError.txFault)
          | none =>
            let orderItems := mkOrderItems resolved
            let totalAmount := (orderItems.map (fun oi => oi.totalPrice)).sum
            let newCounter := match db.counter with
              | none => 1
              | some v => v + 1
            let newOrder : Order :=
              { id := db.nextId
                orderNumber := newCounter
                userId := userId
                totalAmount := totalAmount
                notes := notes
                status := OrderStatus.PENDENTE
                items := orderItems
                statusHistory :=
                  [{ status := OrderStatus.PENDENTE
                     changedBy := none
                     notes := some "Pedido criado"
                     changedAt := db.now }]
                preparedAt := none
                readyAt := none
                deliveredAt := none
                cancelledAt := none }
            let db' : DB :=
              { db with
                counter := some newCounter
                orders := db.orders ++ [newOrder]
                carts := db.carts.map (fun c =>
                  if c.id = cart.id then { c with items := [] } else c)
                nextId := db.nextId + 1
                now := db.now + 1 }
            (db', Except.ok newOrder)

/-- Embeds `OrderService.createFromCart` in its normal (fault-free) execution. -/
def createFromCart (db : DB) (userId : Nat) (notes : Option String) :
    DB × Except DomainError Order :=
  createFromCartAux db userId notes none

/-- Embeds `OrderService.updateStatus(id, newStatus, adminId, notes)`: looks the
order up, consults the transition table, and on success updates the status,
stamps the status-specific timestamp field, and appends one history entry
carrying the new status, the admin id and the notes. -/
def updateStatus (db : DB) (id : Nat) (newStatus : OrderStatus)
    (adminId : Nat) (notes : Option String) : DB × Except DomainError Order :=
  match findOrder db id with
  | none => (db, Except.error DomainError.orderNotFound)
  | some order =>
    if newStatus ∈ VALID_STATUS_TRANSITIONS order.status then
      let entry : StatusHistoryEntry :=
        { status := newStatus
          changedBy := some adminId
          notes := notes
          changedAt := db.now }
      let updated : Order :=
        { order with
          status := newStatus
          statusHistory := order.statusHistory ++ [entry]
          preparedAt :=
            if newStatus = OrderStatus.EM_PREPARO then some db.now
            else order.preparedAt
          readyAt :=
            if newStatus = OrderStatus.PRONTO then some db.now
            else order.readyAt
          deliveredAt :=
            if newStatus = OrderStatus.ENTREGUE then some db.now
            else order.deliveredAt
          cancelledAt :=
            if newStatus = OrderStatus.CANCELADO then some db.now
            else order.cancelledAt }
      ({ db with
         orders := db.orders.map (fun o => if o.id = id then updated else o)
         now := db.now + 1 },
       Except.ok updated)
    else
      (db, Except.error (DomainError.invalidTransition order.status newStatus))

/-- Embeds `OrderService.cancel(id, userId)`: a `findFirst` on id and owner,
then the PENDENTE check, then the update with `cancelledAt` and one
history entry noting `'Cancelado pelo cliente'`. -/
def cancel (db : DB) (id userId : Nat) : DB × Except DomainError Order :=
  match db.orders.find? (fun o => o.id == id && o.userId == userId) with
  | none => (db, Except.error DomainError.orderNotFound)
  | some order =>
    if order.status = OrderStatus.PENDENTE then
      let updated : Order :=
        { order with
          status := OrderStatus.CANCELADO
          cancelledAt := some db.now
          statusHistory := order.statusHistory ++
            [{ status := OrderStatus.CANCELADO
               changedBy := none
               notes := some "Cancelado pelo cliente"
               changedAt := db.now }] }
      ({ db with
         orders := db.orders.map (fun o => if o.id = id then updated else o)
         now := db.now + 1 },
       Except.ok updated)
    else
      (db, Except.error DomainError.onlyPendingCancellable)

/-- Embeds `OrderService.getById(id, userId, isAdmin)`: a `findFirst` whose
`where` clause is `{ id }` for admins and `{ id, userId }` otherwise;
absence of a match is reported as the 404 `'Pedido nao encontrado'`. -/
def getById (db : DB) (id userId : Nat) (isAdmin : Bool) :
    Except DomainError Order :=
  match db.orders.find? (fun o => o.id == id && (isAdmin || o.userId == userId)) with
  | none => Except.error DomainError.orderNotFound
  | some o => Except.ok o

/-- The history as read back by the service (`statusHistory: { orderBy:
{ changedAt: 'desc' } }`): since every appended entry carries a strictly
larger `changedAt` than all earlier ones, descending timestamp order is the
reverse of the stored chronological order. -/
def historyDesc (o : Order) : List StatusHistoryEntry :=
  o.statusHistory.reverse

/-- The cart payload `CartService.getCart` returns: the cart row together
with the computed `total` and `itemCount`. -/
structure CartView where
  cart : Cart
  total : Rat
  itemCount : Nat
  deriving Repr, DecidableEq

/-- The totals `getCart` computes over the joined items: `total` is the sum
of current product price times quantity, `itemCount` the sum of
quantities. -/
def mkCartView (db : DB) (cart : Cart) : Except DomainError CartView :=
  match resolvedItems db cart.items with
  | Except.error e => Except.error e
  | Except.ok resolved =>
    Except.ok
      { cart := cart
        total := (resolved.map (fun x => x.2.price * (x.1.quantity : Rat))).sum
        itemCount := (cart.items.map (fun it => it.quantity)).sum }

/-- Embeds `CartService.getCart(userId)`: returns the user's cart with totals; if
the user has no cart yet, first creates an empty one. -/
def getCart (db : DB) (userId : Nat) : DB × Except DomainError CartView :=
  match findCart db userId with
  | some cart => (db, mkCartView db cart)
  | none =>
    let newCart : Cart := { id := db.nextId, userId := userId, items := [] }
    let db' : DB := { db with carts := db.carts ++ [newCart], nextId := db.nextId + 1 }
    (db', mkCartView db' newCart)

/-- JavaScript `a || b` on the optional notes strings: `null` and the empty
string are falsy, so either keeps the previous value. -/
def jsOr (a b : Option String) : Option String :=
  match a with
  | none => b
  | some s => if s = "" then b else some s

/-- Replaces, inside the cart whose id is `cartId`, the item whose id is
`itemId` by `newItem` (the `prisma.cartItem.update` reached through the
carts). -/
def updateCartItem (carts : List Cart) (cartId itemId : Nat) (newItem : CartItem) :
    List Cart :=
  carts.map (fun c =>
    if c.id = cartId then
      { c with items := c.items.map (fun it => if it.id = itemId then newItem else it) }
    else c)

/-- Embeds `CartService.addItem(userId, productId, quantity, notes)`: validates the
product exists and is available, gets or creates the cart, then either
increments the quantity of the existing `(cartId, productId)` item or
creates a new one, and returns `getCart(userId)` on the updated state. -/
def addItem (db : DB) (userId productId : Nat) (quantity : Nat)
    (notes : Option String) : DB × Except DomainError CartView :=
  match findProduct db productId with
  | none => (db, Except.error DomainError.productNotFound)
  | some product =>
    if !product.isAvailable then
      (db, Except.error DomainError.productNotAvailable)
    else
      let dbCart : DB × Cart :=
        match findCart db userId with
        | some c => (db, c)
        | none =>
          let c : Cart := { id := db.nextId, userId := userId, items := [] }
          ({ db with carts := db.carts ++ [c], nextId := db.nextId + 1 }, c)
      let db1 := dbCart.1
      let cart := dbCart.2
      match cart.items.find? (fun it => it.productId == productId) with
      | some existingItem =>
        let updatedItem : CartItem :=
          { existingItem with
            quantity := existingItem.quantity + quantity
            notes := jsOr notes existingItem.notes }
        getCart
          { db1 with carts := updateCartItem db1.carts cart.id existingItem.id updatedItem }
          userId
      | none =>
        let newItem : CartItem :=
          { id := db1.nextId, productId := productId, quantity := quantity, notes := notes }
        getCart
          { db1 with
            nextId := db1.nextId + 1
            carts := db1.carts.map (fun c =>
              if c.id = cart.id then { c with items := c.items ++ [newItem] } else c) }
          userId

/-- Embeds `CartService.updateItem(userId, itemId, quantity, notes)`: requires the
user's cart and the item within it; a quantity of zero or less removes the
item, otherwise the quantity (and, when given, the notes) are updated.  The
`notes` parameter distinguishes "absent" (`none`, JS `undefined`: leave
unchanged) from an explicit value. -/
def updateItem (db : DB) (userId itemId : Nat) (quantity : Int)
    (notes : Option (Option String)) : DB × Except DomainError CartView :=
  match findCart db userId with
  | none => (db, Except.error DomainError.cartNotFound)
  | some cart =>
    match cart.items.find? (fun it => it.id == itemId) with
    | none => (db, Except.error DomainError.itemNotFound)
    | some item =>
      if quantity ≤ 0 then
        getCart
          { db with carts := db.carts.map (fun c =>
              if c.id = cart.id then
                { c with items := c.items.filter (fun it => it.id ≠ itemId) }
              else c) }
          userId
      else
        let updatedItem : CartItem :=
          { item with
            quantity := quantity.toNat
            notes := match notes with
              | none => item.notes
              | some v => v }
        getCart
          { db with carts := updateCartItem db.carts cart.id itemId updatedItem }
          userId

/-- Embeds `CartService.removeItem(userId, itemId)`: requires the user's cart and
the item within it, then deletes the item. -/
def removeItem (db : DB) (userId itemId : Nat) : DB × Except DomainError CartView :=
  match findCart db userId with
  | none => (db, Except.error DomainError.cartNotFound)
  | some cart =>
    match cart.items.find? (fun it => it.id == itemId) with
    | none => (db, Except.error DomainError.itemNotFound)
    | some _ =>
      getCart
        { db with carts := db.carts.map (fun c =>
            if c.id = cart.id then
              { c with items := c.items.filter (fun it => it.id ≠ itemId) }
            else c) }
        userId

/-- Embeds `CartService.clearCart(userId)`: requires the user's cart, then deletes
all of its items. -/
def clearCart (db : DB) (userId : Nat) : DB × Except DomainError CartView :=
  match findCart db userId with
  | none => (db, Except.error DomainError.cartNotFound)
  | some cart =>
    getCart
      { db with carts := db.carts.map (fun c =>
          if c.id = cart.id then { c with items := [] } else c) }
      userId

/-! Concrete instances used to exercise the operations (two available
products at 5 and 3 monetary units, one unavailable product, a cart with
quantities 2 and 1 — the spec's §8 scenario, `totalAmount = 13`). -/

def prodA : Product := { id := 1, name := "Coxinha", price := 5, isAvailable := true }

def prodB : Product := { id := 2, name := "Suco", price := 3, isAvailable := true }

def prodBolo : Product := { id := 3, name := "Bolo", price := 4, isAvailable := false }

def demoCart : Cart :=
  { id := 10, userId := 7
    items := [{ id := 100, productId := 1, quantity := 2, notes := none },
              { id := 101, productId := 2, quantity := 1, notes := none }] }

def demoDB : DB :=
  { products := [prodA, prodB, prodBolo]
    carts := [demoCart]
    orders := []
    counter := none
    nextId := 50
    now := 0 }

/-! ### Helper lemmas -/

/-- Lemma: `find?` over a mapped list, when the map does not disturb the
predicate, returns the image of the original first match. -/
theorem find?_map_of_find? {α : Type} {l : List α} {p : α → Bool} {a : α}
    (g : α → α) (h : l.find? p = some a) (hp : ∀ x, p (g x) = p x) :
    (l.map g).find? p = some (g a) := by
  induction l with
  | nil => simp at h
  | cons hd tl ih =>
    by_cases hphd : p hd = true
    · rw [List.find?_cons_of_pos _ hphd] at h
      cases h
      rw [List.map_cons, List.find?_cons_of_pos _ ((hp a).trans hphd)]
    · rw [List.find?_cons_of_neg _ hphd] at h
      rw [List.map_cons, List.find?_cons_of_neg _ (by rw [hp hd]; exact hphd)]
      exact ih h

/-- A successful join returns the cart lines themselves in the first
components, in order. -/
theorem resolvedItems_fst (db : DB) :
    ∀ {items : List CartItem} {resolved : List (CartItem × Product)},
      resolvedItems db items = Except.ok resolved → resolved.map Prod.fst = items := by
  intro items
  induction items with
  | nil =>
    intro resolved h
    simp only [resolvedItems] at h
    cases h
    rfl
  | cons it rest ih =>
    intro resolved h
    simp only [resolvedItems] at h
    cases hf : findProduct db it.productId with
    | none => rw [hf] at h; cases h
    | some p =>
      rw [hf] at h
      cases hr : resolvedItems db rest with
      | error e => rw [hr] at h; cases h
      | ok rs =>
        rw [hr] at h
        cases h
        simp [ih hr]

/-- A successful join pairs every line with the current row of the product
it references. -/
theorem resolvedItems_lookup (db : DB) :
    ∀ {items : List CartItem} {resolved : List (CartItem × Product)},
      resolvedItems db items = Except.ok resolved →
      ∀ x ∈ resolved, findProduct db x.1.productId = some x.2 := by
  intro items
  induction items with
  | nil =>
    intro resolved h
    simp only [resolvedItems] at h
    cases h
    intro x hx
    cases hx
  | cons it rest ih =>
    intro resolved h
    simp only [resolvedItems] at h
    cases hf : findProduct db it.productId with
    | none => rw [hf] at h; cases h
    | some p =>
      rw [hf] at h
      cases hr : resolvedItems db rest with
      | error e => rw [hr] at h; cases h
      | ok rs =>
        rw [hr] at h
        cases h
        intro x hx
        rcases List.mem_cons.mp hx with hx | hx
        · cases hx; exact hf
        · exact ih hr x hx

/-- Case analysis of the creation routine: every execution either leaves
the state exactly as it was and reports an error, or — only in the
fault-free execution — commits all effects together: counter advanced by
one, the new order carrying that number appended with its (non-empty)
items, and the source cart purged. -/
theorem createFromCartAux_cases (db : DB) (userId : Nat) (notes : Option String)
    (failAt : Option TxStep) :
    ((createFromCartAux db userId notes failAt).1 = db ∧
      ∃ e, (createFromCartAux db userId notes failAt).2 = Except.error e) ∨
    (failAt = none ∧
      ∃ order cart,
        (createFromCartAux db userId notes failAt).2 = Except.ok order ∧
        (createFromCartAux db userId notes failAt).1.counter =
          some (db.counter.getD 0 + 1) ∧
        order.orderNumber = db.counter.getD 0 + 1 ∧
        (createFromCartAux db userId notes failAt).1.orders = db.orders ++ [order] ∧
        order.items ≠ [] ∧
        findCart db userId = some cart ∧ cart.items ≠ [] ∧
        findCart (createFromCartAux db userId notes failAt).1 userId =
          some { cart with items := [] }) := by
  cases hcart : findCart db userId with
  | none =>
    exact Or.inl ⟨by simp [createFromCartAux, hcart],
      DomainError.emptyCart, by simp [createFromCartAux, hcart]⟩
  | some cart =>
    cases hempty : cart.items.isEmpty with
    | true =>
      exact Or.inl ⟨by simp [createFromCartAux, hcart, hempty],
        DomainError.emptyCart, by simp [createFromCartAux, hcart, hempty]⟩
    | false =>
      cases hres : resolvedItems db cart.items with
      | error e =>
        exact Or.inl ⟨by simp [createFromCartAux, hcart, hempty, hres],
          e, by simp [createFromCartAux, hcart, hempty, hres]⟩
      | ok resolved =>
        cases hfind : resolved.find? (fun x => !x.2.isAvailable) with
        | some x =>
          exact Or.inl ⟨by simp [createFromCartAux, hcart, hempty, hres, hfind],
            DomainError.productUnavailable x.2.name,
            by simp [createFromCartAux, hcart, hempty, hres, hfind]⟩
        | none =>
          cases failAt with
          | some s =>
            exact Or.inl ⟨by simp [createFromCartAux, hcart, hempty, hres, hfind],
              DomainError.txFault,
              by simp [createFromCartAux, hcart, hempty, hres, hfind]⟩
          | none =>
            right
            have hne : cart.items ≠ [] := by
              intro hnil
              rw [hnil] at hempty
              simp at hempty
            have hrne : resolved ≠ [] := by
              intro hnil
              have hfst := resolvedItems_fst db hres
              rw [hnil] at hfst
              simp at hfst
              exact hne hfst
            refine ⟨rfl, ?_⟩
            simp only [createFromCartAux, hcart, hempty, hres, hfind,
              Bool.false_eq_true, if_false]
            refine ⟨_, cart, rfl, ?_, ?_, rfl, ?_, rfl, hne, ?_⟩
            · cases hc : db.counter <;> simp [hc]
            · cases hc : db.counter <;> simp [hc]
            · simpa [mkOrderItems] using hrne
            · have := find?_map_of_find? (l := db.carts)
                (p := fun c => c.userId == userId)
                (fun c => if c.id = cart.id then { c with items := [] } else c) hcart
                (by intro x; by_cases hx : x.id = cart.id <;> simp [hx])
              simpa [findCart, if_pos rfl] using this

/-- A successful fault-free creation advances the counter by exactly one
and hands that value to the new order. -/
theorem createFromCart_ok_counter {db db' : DB} {u : Nat} {n : Option String}
    {o : Order} (h : createFromCart db u n = (db', Except.ok o)) :
    db'.counter = some (db.counter.getD 0 + 1) ∧
    o.orderNumber = db.counter.getD 0 + 1 := by
  have h' : createFromCartAux db u n none = (db', Except.ok o) := h
  rcases createFromCartAux_cases db u n none with ⟨-, e, h2⟩ |
    ⟨-, order, cart, h2, h3, h4, -, -, -, -, -⟩
  · rw [h'] at h2
    simp at h2
  · rw [h'] at h2 h3
    simp only [Except.ok.injEq] at h2
    subst h2
    exact ⟨h3, h4⟩

/-- A failed creation leaves the state untouched. -/
theorem createFromCart_error_db {db db' : DB} {u : Nat} {n : Option String}
    {e : DomainError} (h : createFromCart db u n = (db', Except.error e)) :
    db' = db := by
  have h' : createFromCartAux db u n none = (db', Except.error e) := h
  rcases createFromCartAux_cases db u n none with ⟨h1, -, -⟩ |
    ⟨-, order, -, h2, -⟩
  · rw [h'] at h1
    exact h1
  · rw [h'] at h2
    simp at h2

/-- Runs a sequence of `createFromCart` requests in order, threading the
state and collecting the successfully created orders. -/
def runCreates : DB → List (Nat × Option String) → DB × List Order
  | db, [] => (db, [])
  | db, (u, n) :: rest =>
    match createFromCart db u n with
    | (db1, Except.ok o) =>
      let res := runCreates db1 rest
      (res.1, o :: res.2)
    | (db1, Except.error _) => runCreates db1 rest

/-- Lemma: `find?` skips a prefix containing no match. -/
theorem find?_append_of_none {α : Type} {l₁ l₂ : List α} {p : α → Bool}
    (h : l₁.find? p = none) : (l₁ ++ l₂).find? p = l₂.find? p := by
  induction l₁ with
  | nil => rfl
  | cons a l ih =>
    by_cases hpa : p a = true
    · rw [List.find?_cons_of_pos _ hpa] at h
      cases h
    · rw [List.find?_cons_of_neg _ hpa] at h
      rw [List.cons_append, List.find?_cons_of_neg _ hpa]
      exact ih h

/-- The per-cart invariant: at most one cart item per product. -/
abbrev cartProductsNodup (c : Cart) : Prop :=
  (c.items.map (fun it => it.productId)).Nodup

/-- Primary-key and id-supply wellformedness of the cart store: distinct
cart ids, distinct item ids within each cart, and every cart id below the
id supply. -/
abbrev cartsWF (db : DB) : Prop :=
  (db.carts.map (fun c => c.id)).Nodup ∧
  (∀ c ∈ db.carts, (c.items.map (fun it => it.id)).Nodup) ∧
  (∀ c ∈ db.carts, c.id < db.nextId)

/-- Lemma: `addItem` on a product already in the cart keeps exactly the
same rows, with the matched row's quantity incremented. -/
theorem addItem_existing (db : DB) (userId productId quantity : Nat)
    (notes : Option String) (product : Product) (cart : Cart) (ex : CartItem)
    (hprod : findProduct db productId = some product)
    (havail : product.isAvailable = true)
    (hcart : findCart db userId = some cart)
    (hex : cart.items.find? (fun it => it.productId == productId) = some ex) :
    findCart (addItem db userId productId quantity notes).1 userId =
      some { cart with items := cart.items.map (fun it =>
        if it.id = ex.id then { ex with quantity := ex.quantity + quantity, notes := jsOr notes ex.notes } else it) } := by
  have hg := find?_map_of_find? (l := db.carts) (p := fun c => c.userId == userId)
    (fun c => if c.id = cart.id then
      { c with items := c.items.map (fun it =>
        if it.id = ex.id then { ex with quantity := ex.quantity + quantity, notes := jsOr notes ex.notes } else it) }
      else c)
    hcart (by intro x; by_cases hx : x.id = cart.id <;> simp [hx])
  have hfc : findCart
      { db with carts := updateCartItem db.carts cart.id ex.id { ex with quantity := ex.quantity + quantity, notes := jsOr notes ex.notes } }
      userId = some { cart with items := cart.items.map (fun it =>
        if it.id = ex.id then { ex with quantity := ex.quantity + quantity, notes := jsOr notes ex.notes } else it) } :=
    Eq.trans hg (by simp)
  simp only [addItem, hprod, havail, Bool.not_true, Bool.false_eq_true, if_false,
    hcart, hex, getCart]
  rw [hfc]
  exact hfc

/-- Lemma: `addItem` on a product not yet in the (existing) cart: exactly one new
row with the given quantity is appended. -/
theorem addItem_new (db : DB) (userId productId quantity : Nat)
    (notes : Option String) (product : Product) (cart : Cart)
    (hprod : findProduct db productId = some product)
    (havail : product.isAvailable = true)
    (hcart : findCart db userId = some cart)
    (hex : cart.items.find? (fun it => it.productId == productId) = none) :
    findCart (addItem db userId productId quantity notes).1 userId =
      some { cart with items := cart.items ++
        [{ id := db.nextId, productId := productId, quantity := quantity, notes := notes }] } := by
  have hg := find?_map_of_find? (l := db.carts) (p := fun c => c.userId == userId)
    (fun c => if c.id = cart.id then
      { c with items := c.items ++
        [{ id := db.nextId, productId := productId, quantity := quantity, notes := notes }] }
      else c)
    hcart (by intro x; by_cases hx : x.id = cart.id <;> simp [hx])
  have hfc : findCart
      { db with
        nextId := db.nextId + 1
        carts := db.carts.map (fun c => if c.id = cart.id then
          { c with items := c.items ++
            [{ id := db.nextId, productId := productId, quantity := quantity, notes := notes }] }
          else c) }
      userId = some { cart with items := cart.items ++
        [{ id := db.nextId, productId := productId, quantity := quantity, notes := notes }] } :=
    Eq.trans hg (by simp)
  simp only [addItem, hprod, havail, Bool.not_true, Bool.false_eq_true, if_false,
    hcart, hex, getCart]
  rw [hfc]
  exact hfc

/-- Lemma: `addItem` for a user without a cart: an empty cart is created and the
one new row appended to it. -/
theorem addItem_freshCart (db : DB) (userId productId quantity : Nat)
    (notes : Option String) (product : Product)
    (hprod : findProduct db productId = some product)
    (havail : product.isAvailable = true)
    (hcart : findCart db userId = none) :
    findCart (addItem db userId productId quantity notes).1 userId =
      some { id := db.nextId, userId := userId, items := [{ id := db.nextId + 1, productId := productId, quantity := quantity, notes := notes }] } := by
  have hfc : findCart
      { db with
        carts := List.map
          (fun c => if c.id = db.nextId then { c with items := c.items ++ [{ id := db.nextId + 1, productId := productId, quantity := quantity, notes := notes }] } else c)
          (db.carts ++ [({ id := db.nextId, userId := userId, items := [] } : Cart)])
        nextId := db.nextId + 1 + 1 }
      userId = some { id := db.nextId, userId := userId, items := [{ id := db.nextId + 1, productId := productId, quantity := quantity, notes := notes }] } := by
    have hnone : (List.map
        (fun c => if c.id = db.nextId then { c with items := c.items ++ [{ id := db.nextId + 1, productId := productId, quantity := quantity, notes := notes }] } else c)
        db.carts).find? (fun c => c.userId == userId) = none := by
      rw [List.find?_eq_none]
      intro c' hc'
      obtain ⟨c, hc, rfl⟩ := List.mem_map.mp hc'
      have hcu : (c.userId == userId) = false := by
        have := List.find?_eq_none.mp hcart c hc
        simpa using this
      by_cases hz : c.id = db.nextId <;> simp [hz, hcu]
    show (List.map _ (db.carts ++ [_])).find? _ = _
    rw [List.map_append]
    rw [find?_append_of_none hnone]
    simp
  simp only [addItem, hprod, havail, Bool.not_true, Bool.false_eq_true, if_false,
    hcart, List.find?_nil, getCart]
  rw [hfc]
  exact hfc

/-- Every cart still has at most one row per product after `addItem`, on a
wellformed store. -/
theorem addItem_nodup (db : DB) (userId productId quantity : Nat)
    (notes : Option String) (hwf : cartsWF db)
    (hinv : ∀ c ∈ db.carts, cartProductsNodup c) :
    ∀ c ∈ (addItem db userId productId quantity notes).1.carts, cartProductsNodup c := by
  rcases hwf with ⟨hids, hitem, hfresh⟩
  cases hprod : findProduct db productId with
  | none =>
    simp only [addItem, hprod]
    exact hinv
  | some product =>
    cases havail : product.isAvailable with
    | false =>
      simp only [addItem, hprod, havail, Bool.not_false, if_true]
      exact hinv
    | true =>
      cases hcart : findCart db userId with
      | some cart =>
        have hmemc : cart ∈ db.carts := List.mem_of_find?_eq_some hcart
        cases hex : cart.items.find? (fun it => it.productId == productId) with
        | some ex =>
          have hmemx : ex ∈ cart.items := List.mem_of_find?_eq_some hex
          have hg := find?_map_of_find? (l := db.carts) (p := fun c => c.userId == userId)
            (fun c => if c.id = cart.id then
              { c with items := c.items.map (fun it =>
                if it.id = ex.id then { ex with quantity := ex.quantity + quantity, notes := jsOr notes ex.notes } else it) }
              else c)
            hcart (by intro x; by_cases hx : x.id = cart.id <;> simp [hx])
          have hfc : findCart
              { db with carts := updateCartItem db.carts cart.id ex.id { ex with quantity := ex.quantity + quantity, notes := jsOr notes ex.notes } }
              userId = some { cart with items := cart.items.map (fun it =>
                if it.id = ex.id then { ex with quantity := ex.quantity + quantity, notes := jsOr notes ex.notes } else it) } :=
            Eq.trans hg (by simp)
          simp only [addItem, hprod, havail, Bool.not_true, Bool.false_eq_true, if_false,
            hcart, hex, getCart]
          rw [hfc]
          intro c' hc'
          simp only [updateCartItem, List.mem_map] at hc'
          obtain ⟨c, hc, rfl⟩ := hc'
          by_cases hcid : c.id = cart.id
          · have hceq : c = cart := List.inj_on_of_nodup_map hids hc hmemc (by rw [hcid])
            subst hceq
            rw [if_pos hcid]
            unfold cartProductsNodup
            rw [List.map_map]
            have hmaps : c.items.map ((fun it => it.productId) ∘ (fun it =>
                if it.id = ex.id then { ex with quantity := ex.quantity + quantity, notes := jsOr notes ex.notes } else it)) =
                c.items.map (fun it => it.productId) := by
              apply List.map_congr_left
              intro it hit
              by_cases hiteq : it.id = ex.id
              · have hit_eq : it = ex := List.inj_on_of_nodup_map (hitem c hc) hit hmemx hiteq
                simp [Function.comp, hiteq, hit_eq]
              · simp [Function.comp, hiteq]
            rw [hmaps]
            exact hinv c hc
          · rw [if_neg hcid]
            exact hinv c hc
        | none =>
          have hg := find?_map_of_find? (l := db.carts) (p := fun c => c.userId == userId)
            (fun c => if c.id = cart.id then
              { c with items := c.items ++ [{ id := db.nextId, productId := productId, quantity := quantity, notes := notes }] }
              else c)
            hcart (by intro x; by_cases hx : x.id = cart.id <;> simp [hx])
          have hfc : findCart
              { db with
                carts := db.carts.map (fun c => if c.id = cart.id then { c with items := c.items ++ [{ id := db.nextId, productId := productId, quantity := quantity, notes := notes }] } else c)
                nextId := db.nextId + 1 }
              userId = some { cart with items := cart.items ++ [{ id := db.nextId, productId := productId, quantity := quantity, notes := notes }] } :=
            Eq.trans hg (by simp)
          simp only [addItem, hprod, havail, Bool.not_true, Bool.false_eq_true, if_false,
            hcart, hex, getCart]
          rw [hfc]
          intro c' hc'
          simp only [List.mem_map] at hc'
          obtain ⟨c, hc, rfl⟩ := hc'
          by_cases hcid : c.id = cart.id
          · have hceq : c = cart := List.inj_on_of_nodup_map hids hc hmemc (by rw [hcid])
            subst hceq
            rw [if_pos hcid]
            unfold cartProductsNodup
            simp only [List.map_append, List.map_cons, List.map_nil]
            rw [List.nodup_append]
            refine ⟨hinv c hc, List.nodup_singleton _, ?_⟩
            rw [List.disjoint_singleton]
            intro hmem
            obtain ⟨it, hit, hitpid⟩ := List.mem_map.mp hmem
            have hf := List.find?_eq_none.mp hex it hit
            simp [hitpid] at hf
          · rw [if_neg hcid]
            exact hinv c hc
      | none =>
        have hfc : findCart
            { db with
              carts := List.map
                (fun c => if c.id = db.nextId then { c with items := c.items ++ [{ id := db.nextId + 1, productId := productId, quantity := quantity, notes := notes }] } else c)
                (db.carts ++ [({ id := db.nextId, userId := userId, items := [] } : Cart)])
              nextId := db.nextId + 1 + 1 }
            userId = some { id := db.nextId, userId := userId, items := [{ id := db.nextId + 1, productId := productId, quantity := quantity, notes := notes }] } := by
          have hnone : (List.map
              (fun c => if c.id = db.nextId then { c with items := c.items ++ [{ id := db.nextId + 1, productId := productId, quantity := quantity, notes := notes }] } else c)
              db.carts).find? (fun c => c.userId == userId) = none := by
            rw [List.find?_eq_none]
            intro c' hc'
            obtain ⟨c, hc, rfl⟩ := List.mem_map.mp hc'
            have hcu : (c.userId == userId) = false := by
              have := List.find?_eq_none.mp hcart c hc
              simpa using this
            by_cases hz : c.id = db.nextId <;> simp [hz, hcu]
          show (List.map _ (db.carts ++ [_])).find? _ = _
          rw [List.map_append]
          rw [find?_append_of_none hnone]
          simp
        simp only [addItem, hprod, havail, Bool.not_true, Bool.false_eq_true, if_false,
          hcart, List.find?_nil, getCart]
        rw [hfc]
        intro c' hc'
        simp only [List.map_append] at hc'
        rw [List.mem_append] at hc'
        rcases hc' with hc' | hc'
        · obtain ⟨c, hc, rfl⟩ := List.mem_map.mp hc'
          have hz : c.id ≠ db.nextId := Nat.ne_of_lt (hfresh c hc)
          rw [if_neg hz]
          exact hinv c hc
        · simp at hc'
          subst hc'
          simp [cartProductsNodup]

/-! ### Claims -/

/-- C1: for a user whose cart exists, is non-empty, and references only
available (and present) products, `createFromCart` succeeds; the created
order's `totalAmount` is the sum over all cart items of the current product
price times the quantity; its items are the snapshots of the current
product name and price built by `mkOrderItems` from exactly the cart's
lines paired with their current product rows; its history is the single
system-authored `PENDENTE` entry noting `'Pedido criado'`; and afterwards
the source cart has zero items. -/
theorem createFromCart_correct (db : DB) (userId : Nat) (notes : Option String)
    (cart : Cart) (resolved : List (CartItem × Product))
    (hcart : findCart db userId = some cart)
    (hne : cart.items ≠ [])
    (hres : resolvedItems db cart.items = Except.ok resolved)
    (havail : ∀ x ∈ resolved, x.2.isAvailable = true) :
    ∃ db' order,
      createFromCart db userId notes = (db', Except.ok order) ∧
      order.totalAmount = (resolved.map (fun x => x.2.price * (x.1.quantity : Rat))).sum ∧
      order.items = mkOrderItems resolved ∧
      resolved.map Prod.fst = cart.items ∧
      (∀ x ∈ resolved, findProduct db x.1.productId = some x.2) ∧
      order.statusHistory =
        [{ status := OrderStatus.PENDENTE, changedBy := none,
           notes := some "Pedido criado", changedAt := db.now }] ∧
      findCart db' userId = some { cart with items := [] } := by
  have hne' : cart.items.isEmpty = false := by
    cases h : cart.items
    · exact absurd h hne
    · rfl
  have hnone : cart.items ≠ [] → resolved.find? (fun x => !x.2.isAvailable) = none := by
    intro _
    rw [List.find?_eq_none]
    intro x hx
    simp [havail x hx]
  simp only [createFromCart, createFromCartAux, hcart, hne', hres, hnone hne,
    Bool.false_eq_true, if_false]
  refine ⟨_, _, rfl, ?_, rfl, resolvedItems_fst db hres, resolvedItems_lookup db hres,
    rfl, ?_⟩
  · simp [mkOrderItems, List.map_map]
    rfl
  · have := find?_map_of_find? (l := db.carts) (p := fun c => c.userId == userId)
      (fun c => if c.id = cart.id then { c with items := [] } else c) hcart
      (by intro x; by_cases hx : x.id = cart.id <;> simp [hx])
    simpa [findCart, if_pos rfl] using this

/-- A cart of user 7 holding only the unavailable product. -/
def unavailCart : Cart :=
  { id := 11, userId := 7
    items := [{ id := 102, productId := 3, quantity := 1, notes := none }] }

/-- A database in which user 7's cart references an unavailable product. -/
def unavailDB : DB :=
  { products := [prodA, prodB, prodBolo]
    carts := [unavailCart]
    orders := []
    counter := none
    nextId := 50
    now := 0 }

/-- A pending order of user 7 used to exercise the lifecycle operations. -/
def demoOrderPending : Order :=
  { id := 20, orderNumber := 1, userId := 7, totalAmount := 13, notes := none
    status := OrderStatus.PENDENTE, items := []
    statusHistory := [{ status := OrderStatus.PENDENTE, changedBy := none,
                        notes := some "Pedido criado", changedAt := 0 }]
    preparedAt := none, readyAt := none, deliveredAt := none, cancelledAt := none }

/-- A delivered order of user 7 (terminal status). -/
def demoOrderDelivered : Order :=
  { id := 21, orderNumber := 2, userId := 7, totalAmount := 3, notes := none
    status := OrderStatus.ENTREGUE, items := []
    statusHistory := [{ status := OrderStatus.PENDENTE, changedBy := none,
                        notes := some "Pedido criado", changedAt := 1 }]
    preparedAt := none, readyAt := none, deliveredAt := some 4, cancelledAt := none }

/-- A database holding the two demo orders. -/
def demoOrderDB : DB :=
  { products := [prodA, prodB, prodBolo]
    carts := [demoCart]
    orders := [demoOrderPending, demoOrderDelivered]
    counter := some 2
    nextId := 60
    now := 5 }

/-- The resolved cart lines of `demoCart` against `demoDB`'s catalog. -/
def demoResolved : List (CartItem × Product) :=
  [({ id := 100, productId := 1, quantity := 2, notes := none }, prodA),
   ({ id := 101, productId := 2, quantity := 1, notes := none }, prodB)]

/-- The first cart line of `demoCart` (product 1, quantity 2). -/
def demoItemA : CartItem := { id := 100, productId := 1, quantity := 2, notes := none }

/-- The order `createFromCart` builds from `demoCart` on `demoDB`. -/
def demoNewOrder : Order :=
  { id := 50, orderNumber := 1, userId := 7
    totalAmount := ((mkOrderItems demoResolved).map (fun oi => oi.totalPrice)).sum
    notes := none
    status := OrderStatus.PENDENTE
    items := mkOrderItems demoResolved
    statusHistory := [{ status := OrderStatus.PENDENTE, changedBy := none,
                        notes := some "Pedido criado", changedAt := 0 }]
    preparedAt := none, readyAt := none, deliveredAt := none, cancelledAt := none }

/-- C1 witness: the spec's §8 scenario (quantities 2 and 1 at prices 5 and
3) on the demo database. -/
theorem createFromCart_correct_witness :
    ∃ db' order,
      createFromCart demoDB 7 none = (db', Except.ok order) ∧
      order.totalAmount =
        (demoResolved.map (fun x => x.2.price * (x.1.quantity : Rat))).sum ∧
      order.items = mkOrderItems demoResolved ∧
      demoResolved.map Prod.fst = demoCart.items ∧
      (∀ x ∈ demoResolved, findProduct demoDB x.1.productId = some x.2) ∧
      order.statusHistory =
        [{ status := OrderStatus.PENDENTE, changedBy := none,
           notes := some "Pedido criado", changedAt := demoDB.now }] ∧
      findCart db' 7 = some { demoCart with items := [] } :=
  createFromCart_correct demoDB 7 none demoCart demoResolved
    rfl (by decide) rfl (by decide)

/-- C2: for an existing order, `updateStatus` succeeds exactly when the
requested status is in the transition table for the current status; an
illegal request fails with the domain error naming both statuses and
leaves the state (hence the order's status and its history) untouched; and
the table allows no self-loop from any state. -/
theorem updateStatus_transition_table (db : DB) (id : Nat)
    (newStatus : OrderStatus) (adminId : Nat) (notes : Option String)
    (order : Order) (hord : findOrder db id = some order) :
    ((updateStatus db id newStatus adminId notes).2.isOk = true ↔
      newStatus ∈ VALID_STATUS_TRANSITIONS order.status) ∧
    (newStatus ∉ VALID_STATUS_TRANSITIONS order.status →
      updateStatus db id newStatus adminId notes =
        (db, Except.error (DomainError.invalidTransition order.status newStatus))) ∧
    (∀ s : OrderStatus, s ∉ VALID_STATUS_TRANSITIONS s) := by
  refine ⟨?_, ?_, ?_⟩
  · by_cases hmem : newStatus ∈ VALID_STATUS_TRANSITIONS order.status
    · simp [updateStatus, hord, hmem, Except.isOk, Except.toBool]
    · simp [updateStatus, hord, hmem, Except.isOk, Except.toBool]
  · intro hmem
    simp [updateStatus, hord, hmem]
  · intro s
    cases s <;> simp [VALID_STATUS_TRANSITIONS]

/-- C2 witness: on the pending demo order, `PRONTO` (READY) is rejected
while the table row for `PENDENTE` is consulted. -/
theorem updateStatus_transition_table_witness :
    ((updateStatus demoOrderDB 20 OrderStatus.PRONTO 99 none).2.isOk = true ↔
      OrderStatus.PRONTO ∈ VALID_STATUS_TRANSITIONS demoOrderPending.status) ∧
    (OrderStatus.PRONTO ∉ VALID_STATUS_TRANSITIONS demoOrderPending.status →
      updateStatus demoOrderDB 20 OrderStatus.PRONTO 99 none =
        (demoOrderDB,
         Except.error
           (DomainError.invalidTransition demoOrderPending.status OrderStatus.PRONTO))) ∧
    (∀ s : OrderStatus, s ∉ VALID_STATUS_TRANSITIONS s) :=
  updateStatus_transition_table demoOrderDB 20 OrderStatus.PRONTO 99 none
    demoOrderPending rfl

/-- C6: `cancel` fails with the 404 not-found error when no order matches
the id-and-owner lookup; fails with the only-pending domain error (state
untouched) when the matched order is not `PENDENTE`; and on a pending
owned order sets the status to `CANCELADO`, records the cancellation
timestamp, and appends exactly the one history entry noting
`'Cancelado pelo cliente'`. -/
theorem cancel_spec (db : DB) (id userId : Nat) :
    (db.orders.find? (fun o => o.id == id && o.userId == userId) = none →
      cancel db id userId = (db, Except.error DomainError.orderNotFound)) ∧
    (∀ order, db.orders.find? (fun o => o.id == id && o.userId == userId) = some order →
      order.status ≠ OrderStatus.PENDENTE →
      cancel db id userId = (db, Except.error DomainError.onlyPendingCancellable)) ∧
    (∀ order, db.orders.find? (fun o => o.id == id && o.userId == userId) = some order →
      order.status = OrderStatus.PENDENTE →
      ∃ updated,
        cancel db id userId =
          ({ db with
             orders := db.orders.map (fun o => if o.id = id then updated else o)
             now := db.now + 1 },
           Except.ok updated) ∧
        updated.status = OrderStatus.CANCELADO ∧
        updated.cancelledAt = some db.now ∧
        updated.statusHistory = order.statusHistory ++
          [{ status := OrderStatus.CANCELADO, changedBy := none,
             notes := some "Cancelado pelo cliente", changedAt := db.now }]) := by
  refine ⟨?_, ?_, ?_⟩
  · intro h
    simp [cancel, h]
  · intro order h hst
    simp [cancel, h, hst]
  · intro order h hst
    simp only [cancel, h, if_pos hst]
    exact ⟨_, rfl, rfl, rfl, rfl⟩

/-- C6 witness: cancelling the delivered demo order fails with the
only-pending error; cancelling the pending one succeeds with the
documented effects. -/
theorem cancel_spec_witness :
    (cancel demoOrderDB 21 7 =
      (demoOrderDB, Except.error DomainError.onlyPendingCancellable)) ∧
    (∃ updated,
      cancel demoOrderDB 20 7 =
        ({ demoOrderDB with
           orders := demoOrderDB.orders.map (fun o => if o.id = 20 then updated else o)
           now := demoOrderDB.now + 1 },
         Except.ok updated) ∧
      updated.status = OrderStatus.CANCELADO ∧
      updated.cancelledAt = some demoOrderDB.now ∧
      updated.statusHistory = demoOrderPending.statusHistory ++
        [{ status := OrderStatus.CANCELADO, changedBy := none,
           notes := some "Cancelado pelo cliente", changedAt := demoOrderDB.now }]) :=
  ⟨(cancel_spec demoOrderDB 21 7).2.1 demoOrderDelivered rfl (by decide),
   (cancel_spec demoOrderDB 20 7).2.2 demoOrderPending rfl rfl⟩

/-- C7: every accepted `updateStatus` transition returns the updated
order: its history is the old history with exactly one new entry appended
(the new status, the acting admin, the optional notes) — so existing
entries are untouched — the reverse-chronological read returns the new
entry first, the status is the requested one, and the status-specific
timestamp field (`preparedAt`, `readyAt`, `deliveredAt`, `cancelledAt`) is
stamped while the others keep their values. -/
theorem updateStatus_success_effects (db : DB) (id : Nat)
    (newStatus : OrderStatus) (adminId : Nat) (notes : Option String)
    (order : Order) (hord : findOrder db id = some order)
    (hmem : newStatus ∈ VALID_STATUS_TRANSITIONS order.status) :
    ∃ updated,
      updateStatus db id newStatus adminId notes =
        ({ db with
           orders := db.orders.map (fun o => if o.id = id then updated else o)
           now := db.now + 1 },
         Except.ok updated) ∧
      updated.statusHistory = order.statusHistory ++
        [{ status := newStatus, changedBy := some adminId, notes := notes,
           changedAt := db.now }] ∧
      historyDesc updated =
        { status := newStatus, changedBy := some adminId, notes := notes,
          changedAt := db.now } :: historyDesc order ∧
      updated.status = newStatus ∧
      updated.preparedAt =
        (if newStatus = OrderStatus.EM_PREPARO then some db.now else order.preparedAt) ∧
      updated.readyAt =
        (if newStatus = OrderStatus.PRONTO then some db.now else order.readyAt) ∧
      updated.deliveredAt =
        (if newStatus = OrderStatus.ENTREGUE then some db.now else order.deliveredAt) ∧
      updated.cancelledAt =
        (if newStatus = OrderStatus.CANCELADO then some db.now else order.cancelledAt) := by
  simp only [updateStatus, hord, if_pos hmem]
  exact ⟨_, rfl, rfl, by simp [historyDesc], rfl, rfl, rfl, rfl, rfl⟩

/-- C7 witness: accepting `PENDENTE → EM_PREPARO` on the pending demo
order appends exactly one entry and stamps `preparedAt`. -/
theorem updateStatus_success_effects_witness :
    ∃ updated,
      updateStatus demoOrderDB 20 OrderStatus.EM_PREPARO 99 none =
        ({ demoOrderDB with
           orders := demoOrderDB.orders.map (fun o => if o.id = 20 then updated else o)
           now := demoOrderDB.now + 1 },
         Except.ok updated) ∧
      updated.statusHistory = demoOrderPending.statusHistory ++
        [{ status := OrderStatus.EM_PREPARO, changedBy := some 99, notes := none,
           changedAt := demoOrderDB.now }] ∧
      historyDesc updated =
        { status := OrderStatus.EM_PREPARO, changedBy := some 99, notes := none,
          changedAt := demoOrderDB.now } :: historyDesc demoOrderPending ∧
      updated.status = OrderStatus.EM_PREPARO ∧
      updated.preparedAt =
        (if OrderStatus.EM_PREPARO = OrderStatus.EM_PREPARO then some demoOrderDB.now
         else demoOrderPending.preparedAt) ∧
      updated.readyAt =
        (if OrderStatus.EM_PREPARO = OrderStatus.PRONTO then some demoOrderDB.now
         else demoOrderPending.readyAt) ∧
      updated.deliveredAt =
        (if OrderStatus.EM_PREPARO = OrderStatus.ENTREGUE then some demoOrderDB.now
         else demoOrderPending.deliveredAt) ∧
      updated.cancelledAt =
        (if OrderStatus.EM_PREPARO = OrderStatus.CANCELADO then some demoOrderDB.now
         else demoOrderPending.cancelledAt) :=
  updateStatus_success_effects demoOrderDB 20 OrderStatus.EM_PREPARO 99 none
    demoOrderPending rfl (by decide)

/-- C5: `createFromCart` rejects before any mutation: if the user has no
cart or the cart has no items it returns the empty-cart domain error with
the state untouched, and if some resolved cart line references an
unavailable product it returns the domain error naming the first such
product, again with the state untouched (so no order, no counter advance,
cart intact). -/
theorem createFromCart_rejects (db : DB) (userId : Nat) (notes : Option String) :
    ((findCart db userId = none ∨
        ∃ cart, findCart db userId = some cart ∧ cart.items = []) →
      createFromCart db userId notes = (db, Except.error DomainError.emptyCart)) ∧
    (∀ cart resolved x, findCart db userId = some cart →
      resolvedItems db cart.items = Except.ok resolved →
      resolved.find? (fun y => !y.2.isAvailable) = some x →
      createFromCart db userId notes =
        (db, Except.error (DomainError.productUnavailable x.2.name))) := by
  constructor
  · rintro (h | ⟨cart, h, hempty⟩)
    · simp [createFromCart, createFromCartAux, h]
    · simp [createFromCart, createFromCartAux, h, hempty]
  · intro cart resolved x hcart hres hfind
    have hne' : cart.items.isEmpty = false := by
      cases hi : cart.items with
      | nil =>
        rw [hi] at hres
        simp only [resolvedItems] at hres
        cases hres
        simp at hfind
      | cons a l => rfl
    simp [createFromCart, createFromCartAux, hcart, hne', hres, hfind]

/-- C5 witness: a user without a cart (user 9) gets the empty-cart error;
a cart holding the unavailable product gets the error naming it. -/
theorem createFromCart_rejects_witness :
    createFromCart demoDB 9 none = (demoDB, Except.error DomainError.emptyCart) ∧
    createFromCart unavailDB 7 none =
      (unavailDB, Except.error (DomainError.productUnavailable "Bolo")) :=
  ⟨(createFromCart_rejects demoDB 9 none).1 (Or.inl rfl),
   (createFromCart_rejects unavailDB 7 none).2 unavailCart
     [({ id := 102, productId := 3, quantity := 1, notes := none }, prodBolo)]
     ({ id := 102, productId := 3, quantity := 1, notes := none }, prodBolo)
     rfl rfl rfl⟩

/-- C8: for a non-admin caller, `getById` yields the ok order exactly when
the caller owns an order with that id; whenever no owned order exists —
whether the id exists under another owner or not at all — the outcome is
the identical not-found error, so two such runs are observationally equal
and no existence information leaks; an admin gets any existing id. -/
theorem getById_no_leak (db : DB) (id userId : Nat) :
    ((∀ o ∈ db.orders, ¬(o.id = id ∧ o.userId = userId)) →
      getById db id userId false = Except.error DomainError.orderNotFound) ∧
    (∀ (db₂ : DB) (id₂ : Nat),
      (∀ o ∈ db.orders, ¬(o.id = id ∧ o.userId = userId)) →
      (∀ o ∈ db₂.orders, ¬(o.id = id₂ ∧ o.userId = userId)) →
      getById db id userId false = getById db₂ id₂ userId false) ∧
    ((∃ o ∈ db.orders, o.id = id ∧ o.userId = userId) →
      ∃ o, getById db id userId false = Except.ok o ∧ o.id = id ∧ o.userId = userId) ∧
    ((∃ o ∈ db.orders, o.id = id) →
      ∃ o, getById db id userId true = Except.ok o ∧ o.id = id) := by
  have hnone : ∀ (d : DB) (i : Nat),
      (∀ o ∈ d.orders, ¬(o.id = i ∧ o.userId = userId)) →
      getById d i userId false = Except.error DomainError.orderNotFound := by
    intro d i h
    have : d.orders.find? (fun o => o.id == i && (false || o.userId == userId)) = none := by
      rw [List.find?_eq_none]
      intro o ho
      have := h o ho
      simp only [Bool.false_or, Bool.and_eq_true, beq_iff_eq]
      intro hc
      exact this hc
    simp only [getById]
    rw [this]
  refine ⟨hnone db id, ?_, ?_, ?_⟩
  · intro db₂ id₂ h1 h2
    rw [hnone db id h1, hnone db₂ id₂ h2]
  · rintro ⟨o, ho, hid, huser⟩
    have hsome : (db.orders.find?
        (fun o => o.id == id && (false || o.userId == userId))).isSome := by
      rw [List.find?_isSome]
      exact ⟨o, ho, by simp [hid, huser]⟩
    obtain ⟨o', ho'⟩ := Option.isSome_iff_exists.mp hsome
    have hp := List.find?_some ho'
    simp only [Bool.false_or, Bool.and_eq_true, beq_iff_eq] at hp
    exact ⟨o', by simp only [getById]; rw [ho'], hp.1, hp.2⟩
  · rintro ⟨o, ho, hid⟩
    have hsome : (db.orders.find?
        (fun o => o.id == id && (true || o.userId == userId))).isSome := by
      rw [List.find?_isSome]
      exact ⟨o, ho, by simp [hid]⟩
    obtain ⟨o', ho'⟩ := Option.isSome_iff_exists.mp hsome
    have hp := List.find?_some ho'
    simp only [Bool.true_or, Bool.and_true, Bool.and_eq_true, beq_iff_eq] at hp
    exact ⟨o', by simp only [getById]; rw [ho'], hp⟩

/-- C8 witness: user 8 neither owns order 20 (it belongs to user 7) nor
order 999 (absent); both runs give the same not-found error; user 7 and an
admin can read order 20. -/
theorem getById_no_leak_witness :
    (getById demoOrderDB 20 8 false = Except.error DomainError.orderNotFound) ∧
    (getById demoOrderDB 20 8 false = getById demoOrderDB 999 8 false) ∧
    (∃ o, getById demoOrderDB 20 7 false = Except.ok o ∧ o.id = 20 ∧ o.userId = 7) ∧
    (∃ o, getById demoOrderDB 20 8 true = Except.ok o ∧ o.id = 20) :=
  ⟨(getById_no_leak demoOrderDB 20 8).1 (by decide),
   (getById_no_leak demoOrderDB 20 8).2.1 demoOrderDB 999 (by decide) (by decide),
   (getById_no_leak demoOrderDB 20 7).2.2.1
     ⟨demoOrderPending, by decide, rfl, rfl⟩,
   (getById_no_leak demoOrderDB 20 8).2.2.2
     ⟨demoOrderPending, by decide, rfl⟩⟩

/-- C10: `getCart` never fails for a user without a cart — it creates and
returns a fresh empty cart with `total = 0` and `itemCount = 0`; for a user
with a cart (whose lines all resolve) it returns the sum of current product
price times quantity as `total` and the sum of quantities as `itemCount`;
by contrast `clearCart`, `removeItem` and `updateItem` fail with the
not-found error (state untouched) when the user has no cart. -/
theorem getCart_spec (db : DB) (userId : Nat) :
    (findCart db userId = none →
      getCart db userId =
        ({ db with
           carts := db.carts ++ [{ id := db.nextId, userId := userId, items := [] }]
           nextId := db.nextId + 1 },
         Except.ok { cart := { id := db.nextId, userId := userId, items := [] },
                     total := 0, itemCount := 0 })) ∧
    (∀ cart resolved, findCart db userId = some cart →
      resolvedItems db cart.items = Except.ok resolved →
      getCart db userId =
        (db, Except.ok
          { cart := cart
            total := (resolved.map (fun x => x.2.price * (x.1.quantity : Rat))).sum
            itemCount := (cart.items.map (fun it => it.quantity)).sum })) ∧
    (findCart db userId = none →
      clearCart db userId = (db, Except.error DomainError.cartNotFound) ∧
      (∀ itemId, removeItem db userId itemId =
        (db, Except.error DomainError.cartNotFound)) ∧
      (∀ itemId q n, updateItem db userId itemId q n =
        (db, Except.error DomainError.cartNotFound))) := by
  refine ⟨?_, ?_, ?_⟩
  · intro h
    simp [getCart, h, mkCartView, resolvedItems]
  · intro cart resolved hcart hres
    simp [getCart, hcart, mkCartView, hres]
  · intro h
    refine ⟨?_, ?_, ?_⟩
    · simp [clearCart, h]
    · intro itemId
      simp [removeItem, h]
    · intro itemId q n
      simp [updateItem, h]

/-- C10 witness: user 9 has no cart in the demo database (auto-creation
and the three not-found failures), while user 7's cart totals 13 over 3
units. -/
theorem getCart_spec_witness :
    (getCart demoDB 9 =
      ({ demoDB with
         carts := demoDB.carts ++ [{ id := demoDB.nextId, userId := 9, items := [] }]
         nextId := demoDB.nextId + 1 },
       Except.ok { cart := { id := demoDB.nextId, userId := 9, items := [] },
                   total := 0, itemCount := 0 })) ∧
    (getCart demoDB 7 =
      (demoDB, Except.ok
        { cart := demoCart
          total := (demoResolved.map (fun x => x.2.price * (x.1.quantity : Rat))).sum
          itemCount := (demoCart.items.map (fun it => it.quantity)).sum })) ∧
    (clearCart demoDB 9 = (demoDB, Except.error DomainError.cartNotFound)) ∧
    (removeItem demoDB 9 100 = (demoDB, Except.error DomainError.cartNotFound)) ∧
    (updateItem demoDB 9 100 2 none = (demoDB, Except.error DomainError.cartNotFound)) :=
  ⟨(getCart_spec demoDB 9).1 rfl,
   (getCart_spec demoDB 7).2.1 demoCart demoResolved rfl rfl,
   ((getCart_spec demoDB 9).2.2 rfl).1,
   ((getCart_spec demoDB 9).2.2 rfl).2.1 100,
   ((getCart_spec demoDB 9).2.2 rfl).2.2 100 2 none⟩

/-- C3: the creation transaction is all-or-nothing.  With a storage fault
injected at any step inside the transaction (counter upsert, order/items/
history insert, or cart purge), the execution either reports an error with
the returned state exactly the input state — no counter advance, no order,
cart intact — or, only in the fault-free run, commits everything together:
counter advanced by one, the order carrying that number appended with its
non-empty items, and the source cart purged.  So in no execution is the
cart purged without an order, an order left without items, or a counter
value minted without its order. -/
theorem createFromCart_atomicity (db : DB) (userId : Nat) (notes : Option String)
    (failAt : Option TxStep) :
    ((createFromCartAux db userId notes failAt).1 = db ∧
      ∃ e, (createFromCartAux db userId notes failAt).2 = Except.error e) ∨
    (failAt = none ∧
      ∃ order cart,
        (createFromCartAux db userId notes failAt).2 = Except.ok order ∧
        (createFromCartAux db userId notes failAt).1.counter =
          some (db.counter.getD 0 + 1) ∧
        order.orderNumber = db.counter.getD 0 + 1 ∧
        (createFromCartAux db userId notes failAt).1.orders = db.orders ++ [order] ∧
        order.items ≠ [] ∧
        findCart db userId = some cart ∧ cart.items ≠ [] ∧
        findCart (createFromCartAux db userId notes failAt).1 userId =
          some { cart with items := [] }) :=
  createFromCartAux_cases db userId notes failAt

/-- C4: first part — each successful creation advances the single counter
by exactly one (initializing the absent row to 1) and assigns that value
as the new order's number; second part — over any sequence of creations,
the successfully created orders receive the contiguous increasing run of
numbers starting right after the counter's prior value, with no duplicates. -/
theorem counter_contiguous :
    (∀ (db db' : DB) (u : Nat) (n : Option String) (o : Order),
      createFromCart db u n = (db', Except.ok o) →
      db'.counter = some (db.counter.getD 0 + 1) ∧
      o.orderNumber = db.counter.getD 0 + 1) ∧
    (∀ (db : DB) (reqs : List (Nat × Option String)),
      (runCreates db reqs).2.map (fun o => o.orderNumber) =
        List.range' (db.counter.getD 0 + 1) (runCreates db reqs).2.length ∧
      ((runCreates db reqs).2.map (fun o => o.orderNumber)).Nodup) := by
  have main : ∀ (reqs : List (Nat × Option String)) (db : DB),
      (runCreates db reqs).2.map (fun o => o.orderNumber) =
        List.range' (db.counter.getD 0 + 1) (runCreates db reqs).2.length := by
    intro reqs
    induction reqs with
    | nil =>
      intro db
      simp [runCreates]
    | cons req rest ih =>
      intro db
      rcases req with ⟨u, n⟩
      rcases hr : createFromCart db u n with ⟨db1, r⟩
      cases r with
      | ok o =>
        have hco := createFromCart_ok_counter hr
        simp only [runCreates, hr, List.map_cons, List.length_cons]
        rw [ih db1, hco.2, hco.1]
        simp [List.range'_succ]
      | error e =>
        have hdb := createFromCart_error_db hr
        simp only [runCreates, hr]
        rw [hdb]
        exact ih db
  refine ⟨fun db db' u n o h => createFromCart_ok_counter h, fun db reqs => ⟨main reqs db, ?_⟩⟩
  rw [main reqs db]
  exact List.nodup_range' _ _

/-- C4 witness: creating from the demo cart on the fresh demo database
(counter row absent) mints number 1 = `getD 0 + 1`, and the one-request
run produces exactly the run `[1]`. -/
theorem counter_contiguous_witness :
    ((createFromCart demoDB 7 none).1.counter = some (demoDB.counter.getD 0 + 1) ∧
      demoNewOrder.orderNumber = demoDB.counter.getD 0 + 1) ∧
    (runCreates demoDB [(7, none)]).2.map (fun o => o.orderNumber) =
      List.range' (demoDB.counter.getD 0 + 1) (runCreates demoDB [(7, none)]).2.length :=
  ⟨counter_contiguous.1 demoDB (createFromCart demoDB 7 none).1 7 none demoNewOrder rfl,
   (counter_contiguous.2 demoDB [(7, none)]).1⟩

/-- C9: on a wellformed store every cart keeps at most one row per
(cart, product) pair across `addItem`; adding a product already in the
user's cart rewrites that row in place with the quantity incremented by
the given amount (no second row), while adding a product not yet present
appends exactly one new row with the given quantity — also when the cart
itself has to be created first. -/
theorem addItem_accumulates (db : DB) (userId productId quantity : Nat)
    (notes : Option String) (hwf : cartsWF db)
    (hinv : ∀ c ∈ db.carts, cartProductsNodup c) :
    (∀ c ∈ (addItem db userId productId quantity notes).1.carts, cartProductsNodup c) ∧
    (∀ product cart ex,
      findProduct db productId = some product → product.isAvailable = true →
      findCart db userId = some cart →
      cart.items.find? (fun it => it.productId == productId) = some ex →
      findCart (addItem db userId productId quantity notes).1 userId =
        some { cart with items := cart.items.map (fun it =>
          if it.id = ex.id then { ex with quantity := ex.quantity + quantity, notes := jsOr notes ex.notes } else it) }) ∧
    (∀ product cart,
      findProduct db productId = some product → product.isAvailable = true →
      findCart db userId = some cart →
      cart.items.find? (fun it => it.productId == productId) = none →
      findCart (addItem db userId productId quantity notes).1 userId =
        some { cart with items := cart.items ++ [{ id := db.nextId, productId := productId, quantity := quantity, notes := notes }] }) ∧
    (∀ product,
      findProduct db productId = some product → product.isAvailable = true →
      findCart db userId = none →
      findCart (addItem db userId productId quantity notes).1 userId =
        some { id := db.nextId, userId := userId, items := [{ id := db.nextId + 1, productId := productId, quantity := quantity, notes := notes }] }) :=
  ⟨addItem_nodup db userId productId quantity notes hwf hinv,
   fun product cart ex hp ha hc he =>
     addItem_existing db userId productId quantity notes product cart ex hp ha hc he,
   fun product cart hp ha hc he =>
     addItem_new db userId productId quantity notes product cart hp ha hc he,
   fun product hp ha hc =>
     addItem_freshCart db userId productId quantity notes product hp ha hc⟩

/-- C9 witness: adding 3 more of product 1 to user 7's demo cart bumps the
existing row to quantity 5 without adding a row; adding product 1 for user
9 (who has no cart) creates a cart with exactly one row; the per-product
uniqueness invariant holds afterwards. -/
theorem addItem_accumulates_witness :
    (∀ c ∈ (addItem demoDB 7 1 3 none).1.carts, cartProductsNodup c) ∧
    findCart (addItem demoDB 7 1 3 none).1 7 =
      some { demoCart with items := demoCart.items.map (fun it =>
        if it.id = demoItemA.id then { demoItemA with quantity := demoItemA.quantity + 3, notes := jsOr none demoItemA.notes } else it) } ∧
    findCart (addItem demoDB 9 1 3 none).1 9 =
      some { id := demoDB.nextId, userId := 9, items := [{ id := demoDB.nextId + 1, productId := 1, quantity := 3, notes := none }] } :=
  ⟨(addItem_accumulates demoDB 7 1 3 none (by decide) (by decide)).1,
   (addItem_accumulates demoDB 7 1 3 none (by decide) (by decide)).2.1
     prodA demoCart demoItemA rfl rfl rfl rfl,
   (addItem_accumulates demoDB 9 1 3 none (by decide) (by decide)).2.2.2
     prodA rfl rfl rfl⟩

end Cantina
